import Mathlib

/-
Verification development for the edlio repository (EDL to MoSeq converter).

The Python sources are shallowly embedded:
  * numpy floating-point scalars are modelled by the type NpFloat, a rational
    number extended with positive infinity, negative infinity and nan; the
    arithmetic tables mirror IEEE-754 / numpy semantics for the operations the
    code uses (numpy division by a zero float yields an infinity together with
    a RuntimeWarning, it does not raise an exception);
  * the filesystem is modelled by an explicit state FS (a list of existing
    directories plus an association list from paths to file contents); paths
    are lists of name segments, so os.path.join appends segments;
  * file contents are modelled at the granularity the code reads them: a TOML
    manifest carries its parse outcome, a JSON metadata file carries its
    string fields, a tsync log carries its decoded (index, ticks) pairs, and
    the written timestamp text file carries one rational per line;
  * Python exceptions become an error sum type PyError, and stateful
    functions that can raise return Except (PyError x FS) FS so that the
    state at the moment of the raise is visible.
-/

namespace Edlio

/-! ## A model of numpy float scalars -/

/-- Model of a numpy float64 scalar: a rational, or one of the special
values +inf, -inf, nan.  Signed zero is not tracked; the finite zero plays
the role of IEEE +0.0, which matches every zero the embedded code can
produce. -/
inductive NpFloat where
  | fin (q : ℚ)
  | inf
  | ninf
  | nan
deriving DecidableEq

def npNeg : NpFloat → NpFloat
  | .fin q => .fin (-q)
  | .inf => .ninf
  | .ninf => .inf
  | .nan => .nan

def npAdd : NpFloat → NpFloat → NpFloat
  | .nan, _ => .nan
  | .fin _, .nan => .nan
  | .inf, .nan => .nan
  | .ninf, .nan => .nan
  | .fin a, .fin b => .fin (a + b)
  | .fin _, .inf => .inf
  | .fin _, .ninf => .ninf
  | .inf, .fin _ => .inf
  | .inf, .inf => .inf
  | .inf, .ninf => .nan
  | .ninf, .fin _ => .ninf
  | .ninf, .inf => .nan
  | .ninf, .ninf => .ninf

def npSub (a b : NpFloat) : NpFloat := npAdd a (npNeg b)

def npAbs : NpFloat → NpFloat
  | .fin q => .fin |q|
  | .inf => .inf
  | .ninf => .inf
  | .nan => .nan

/-- Division of numpy float scalars.  A finite nonzero value divided by the
(positive) zero gives an infinity with a RuntimeWarning; zero divided by zero
gives nan.  No exception is ever raised. -/
def npDiv : NpFloat → NpFloat → NpFloat
  | .nan, _ => .nan
  | .fin _, .nan => .nan
  | .inf, .nan => .nan
  | .ninf, .nan => .nan
  | .fin a, .fin b =>
      if b = 0 then (if a = 0 then .nan else if 0 < a then .inf else .ninf)
      else .fin (a / b)
  | .fin _, .inf => .fin 0
  | .fin _, .ninf => .fin 0
  | .inf, .fin b => if 0 ≤ b then .inf else .ninf
  | .ninf, .fin b => if 0 ≤ b then .ninf else .inf
  | .inf, .inf => .nan
  | .inf, .ninf => .nan
  | .ninf, .inf => .nan
  | .ninf, .ninf => .nan

/-- Comparison of a numpy scalar with a rational constant, as used by
the code in conditions such as np.mean(diff) > 10.  Comparisons against
nan are false. -/
def npGtQ : NpFloat → ℚ → Bool
  | .fin a, c => decide (c < a)
  | .inf, _ => true
  | .ninf, _ => false
  | .nan, _ => false

/-- Greater-or-equal comparison with a rational constant, used by the 5
percent dropped-frames warning check.  Comparisons against nan are false. -/
def npGeQ : NpFloat → ℚ → Bool
  | .fin a, c => decide (c ≤ a)
  | .inf, _ => true
  | .ninf, _ => false
  | .nan, _ => false

def npSum (l : List NpFloat) : NpFloat := l.foldr npAdd (.fin 0)

/-- Model of np.mean: the sum divided by the length; the mean of an empty
array is nan (numpy emits a RuntimeWarning and yields nan). -/
def npMean (l : List NpFloat) : NpFloat :=
  if l.length = 0 then .nan else npDiv (npSum l) (.fin (l.length : ℚ))

/-- Model of np.diff: consecutive differences, second minus first. -/
def npDiff (l : List NpFloat) : List NpFloat :=
  (l.zip l.tail).map (fun ab => npSub ab.2 ab.1)

/-! ## check_timestamp_error_percentage (src/edlio/format.py lines 88-114) -/

/-- Embedding of check_timestamp_error_percentage.  Source, format.py 88-114:
compute diff = np.diff(timestamps); if np.mean(diff) > 10 rescale diff by
diff /= scaling_factor; avgTime = np.mean(diff); expRate = 1 / avgTime;
percentError = abs(fps - expRate) / fps.  Defaults fps = 30 and
scaling_factor = 1000 are passed explicitly at every call site below. -/
def check_timestamp_error_percentage (timestamps : List NpFloat)
    (fps : ℚ) (scaling_factor : ℚ) : NpFloat :=
  let diff := npDiff timestamps
  let diff :=
    if npGtQ (npMean diff) 10 then
      diff.map (fun d => npDiv d (.fin scaling_factor))
    else diff
  let avgTime := npMean diff
  let expRate := npDiv (.fin 1) avgTime
  let diffRates := npAbs (npSub (.fin fps) expRate)
  npDiv diffRates (.fin fps)

/-! ## Rational-level descriptions of the same arithmetic -/

/-- Consecutive differences of a rational series (the mathematical
counterpart of np.diff). -/
def qdiff (l : List ℚ) : List ℚ :=
  (l.zip l.tail).map (fun ab => ab.2 - ab.1)

/-- Arithmetic mean of a rational list (sum over length). -/
def qmean (l : List ℚ) : ℚ := l.sum / (l.length : ℚ)

/-! ## Filesystem model -/

/-- Model of a TOML scalar value as read from manifest.toml.  Python
truthiness: a string is truthy when nonempty, an integer when nonzero, a
boolean when true. -/
inductive TomlValue where
  | str (s : String)
  | int (n : Int)
  | bool (b : Bool)
deriving DecidableEq

def TomlValue.truthy : TomlValue → Bool
  | .str s => decide (s ≠ "")
  | .int n => decide (n ≠ 0)
  | .bool b => b

/-- Outcome of parsing a manifest with tomlkit.load: either a parse failure
with a message, or a keyed document. -/
inductive TomlParse where
  | failed (msg : String)
  | parsed (doc : List (String × TomlValue))
deriving DecidableEq

/-- Model of a file content, at the granularity at which the code reads it:
a TOML manifest carries the outcome of tomlkit.load (either a parse error
message or a keyed document), a JSON metadata file carries its string
fields, a tsync log carries its variant flag and its decoded list of
(index, microsecond-ticks) pairs, a video or other opaque file is a blob,
and the timestamp text file written by the converter carries one rational
per line. -/
inductive Content where
  | toml (doc : TomlParse)
  | json (fields : List (String × String))
  | tsync (legacy : Bool) (times : List (Int × Int))
  | blob (tag : Nat)
  | tsText (lines : List ℚ)
deriving DecidableEq

/-- Paths are lists of name segments; os.path.join appends segments. -/
abbrev Path := List String

/-- First-match association list lookup (the model of a dict access). -/
def lookupA {α β : Type} [DecidableEq α] : List (α × β) → α → Option β
  | [], _ => none
  | (k, v) :: rest, a => if k = a then some v else lookupA rest a

/-- Association list update: replace the binding in place when the key
exists, append a new binding otherwise.  This models overwriting a file at
an existing path versus creating a fresh one. -/
def updateA {α β : Type} [DecidableEq α] : List (α × β) → α → β → List (α × β)
  | [], a, b => [(a, b)]
  | (k, v) :: rest, a, b =>
      if k = a then (a, b) :: rest else (k, v) :: updateA rest a b

/-- Filesystem state: the set of existing directories (as a list) and the
existing files with their contents (as an association list).  The order of
the lists models the platform directory-listing order, which the code does
not sort. -/
structure FS where
  dirs : List Path
  files : List (Path × Content)
deriving DecidableEq

def FS.isDir (fs : FS) (p : Path) : Bool := decide (p ∈ fs.dirs)

def FS.lookupFile (fs : FS) (p : Path) : Option Content := lookupA fs.files p

def FS.isFile (fs : FS) (p : Path) : Bool := (fs.lookupFile p).isSome

/-- Model of os.path.exists: true for an existing file or directory. -/
def FS.pathExists (fs : FS) (p : Path) : Bool := fs.isDir p || fs.isFile p

/-- When q is an immediate child of directory p, the final name segment of
q; none otherwise. -/
def childName (p q : Path) : Option String :=
  if q.take p.length = p then
    match q.drop p.length with
    | [n] => some n
    | _ => none
  else none

/-- Model of os.listdir: the names of the immediate children of a
directory, subdirectories first, in list order. -/
def FS.childNames (fs : FS) (p : Path) : List String :=
  fs.dirs.filterMap (childName p) ++ fs.files.filterMap (fun e => childName p e.1)

def FS.setFile (fs : FS) (p : Path) (c : Content) : FS :=
  { fs with files := updateA fs.files p c }

/-- Model of the Python exceptions the embedded code can raise.  The module
format.py shadows the builtin FileNotFoundError with its own Exception
subclass of the same name; fileNotFound is the module class and
osFileNotFound is the builtin raised by os.listdir on a missing directory. -/
inductive PyError where
  | fileNotFound (msg : String)
  | osFileNotFound (msg : String)
  | valueError (msg : String)
  | assertionError (msg : String)
  | keyError (key : String)
  | nameError (name : String)
  | sameFileError (msg : String)
  | fileExistsError (msg : String)
  | jsonError (msg : String)
deriving DecidableEq

/-! ## The manifest classifier (src/edlio/format.py lines 21-56) -/

/-- Embedding of the helper detect function, format.py lines 21-56.  The
path must be a directory; a manifest.toml file must exist in it; tomlkit
parse failures are wrapped into a ValueError; the type key of the document
is mapped to the four EDL tags, with a truthy unknown value giving EDLUnit
and a missing or falsy value a ValueError. -/
def _detect_edl_type (fs : FS) (path : Path) : Except PyError String :=
  if ¬ fs.isDir path then
    .error (.fileNotFound "The path is not a directory.")
  else
    match fs.lookupFile (path ++ ["manifest.toml"]) with
    | none => .error (.fileNotFound "No manifest.toml file found.")
    | some (.toml (.failed e)) =>
        .error (.valueError ("Error parsing manifest.toml: " ++ e))
    | some (.toml (.parsed doc)) =>
        let edl_type := lookupA doc "type"
        if edl_type = some (.str "dataset") then .ok "EDLDataset"
        else if edl_type = some (.str "group") then .ok "EDLGroup"
        else if edl_type = some (.str "collection") then .ok "EDLCollection"
        else if (edl_type.map TomlValue.truthy).getD false then .ok "EDLUnit"
        else .error (.valueError "Unknown or invalid EDL type in manifest")
    | some _ =>
        .error (.valueError "Error parsing manifest.toml: not a TOML document")

/-! ## The tsync decoder (src/edlio/format.py lines 59-85) -/

/-- Modelled from the spec: the readers TSyncFile and LegacyTSyncFile live
in the module edlio.dataio.tsyncfile, which format.py imports but which is
not present under src/.  Per the spec (sections 3 and 6), a time-sync log
is an ordered sequence of (index, integer-microsecond-timestamp) pairs with
two self-describing on-disk variants, legacy and current, both of which
decode to that same sequence via the times attribute. -/
def tsyncTimes : Content → Except PyError (List (Int × Int))
  | .tsync _ times => .ok times
  | _ => .error (.valueError "unrecognized tsync file")

/-- Embedding of tsync_to_np, format.py lines 59-85: read the tsync file
(legacy or current variant), convert each raw microsecond tick count to
milliseconds by true division by 1000 (floats idealized as rationals), and
return one value per entry in order.  The call to
check_timestamp_error_percentage at lines 81-84 only prints a warning when
at least 5 percent of frames appear dropped; it raises no exception and
does not affect the result, so its value is discarded here. -/
def tsync_to_np (fs : FS) (tsync_path : Path) : Except PyError (List ℚ) :=
  match fs.lookupFile tsync_path with
  | none => .error (.osFileNotFound "tsync file not found")
  | some c =>
      match tsyncTimes c with
      | .error e => .error e
      | .ok times =>
          let tstamps := times.map (fun time_pair => ((time_pair.2 : ℚ) / 1000))
          let _warn :=
            npGeQ (check_timestamp_error_percentage (tstamps.map .fin) 30 1000)
              (5 / 100)
          .ok tstamps

/-! ## The converter orchestrator (src/edlio/format.py lines 117-184) -/

/-- Model of the Python str.endswith test on a file name. -/
def endsWithStr (s suffix : String) : Bool :=
  suffix.data.isSuffixOf s.data

/-- The inline video-extension test at format.py line 140. -/
def is_video_file (f : String) : Bool :=
  endsWithStr f ".avi" || endsWithStr f ".mkv" || endsWithStr f ".mp4"

/-- The inline tsync-extension test at format.py line 148. -/
def is_tsync_file (f : String) : Bool := endsWithStr f ".tsync"

/-- State produced by a successful os.makedirs(p, exist_ok=True): create
the directory if absent, keep the state unchanged if it already exists. -/
def mkdirsResult (fs : FS) (p : Path) : FS :=
  if fs.isDir p then fs else { fs with dirs := fs.dirs ++ [p] }

/-- Model of os.makedirs(p, exist_ok=True): succeeds when p is already a
directory or absent; raises FileExistsError when a non-directory entry
occupies p. -/
def FS.makedirs (fs : FS) (p : Path) : Except (PyError × FS) FS :=
  if fs.isDir p then .ok fs
  else if fs.isFile p then .error (.fileExistsError "os.makedirs: file exists", fs)
  else .ok { fs with dirs := fs.dirs ++ [p] }

/-- Model of shutil.copy(src, dst): when dst is an existing directory the
file is copied into it under the source base name; copying a file onto
itself raises SameFileError; otherwise the destination is created or
overwritten with the source content. -/
def FS.copyFile (fs : FS) (src dst : Path) : Except (PyError × FS) FS :=
  let dst := if fs.isDir dst then dst ++ [src.getLastD ""] else dst
  if dst = src then .error (.sameFileError "shutil.copy: same file", fs)
  else
    match fs.lookupFile src with
    | none => .error (.osFileNotFound "shutil.copy: source missing", fs)
    | some c => .ok (fs.setFile dst c)

/-- Model of open(p, "w") followed by one f.write per timestamp, each line
holding one float: creates or truncates the file at p. -/
def FS.writeTextLines (fs : FS) (p : Path) (lines : List ℚ) :
    Except (PyError × FS) FS :=
  if fs.isDir p then .error (.osFileNotFound "open: is a directory", fs)
  else .ok (fs.setFile p (.tsText lines))

/-- Model of open followed by json.load on the metadata file. -/
def readJson (fs : FS) (p : Path) : Except PyError (List (String × String)) :=
  match fs.lookupFile p with
  | some (.json fields) => .ok fields
  | some _ => .error (.jsonError "json.load: expecting value")
  | none => .error (.osFileNotFound "metadata.json not found")

/-- Model of a Python dict subscript access, raising KeyError when the key
is absent. -/
def dictGet (fields : List (String × String)) (k : String) :
    Except PyError String :=
  match lookupA fields k with
  | some v => .ok v
  | none => .error (.keyError k)

/-- Embedding of format, src/edlio/format.py lines 117-184.  The steps, in
source order: assert the EDL type is EDLCollection (line 126; the unused
files = os.listdir(path) at line 129 can only fail when path is missing,
which the assert has already excluded, so it is not modelled as a separate
failure); require the metadata file to exist (lines 132-134); list the
sensor video directory (line 139; a missing directory makes os.listdir
raise the builtin FileNotFoundError); select the first entry ending in
.avi/.mkv/.mp4 (lines 139-145); select the first entry ending in .tsync
and decode it (lines 147-150; when none exists the local variable
timestamps is never assigned and line 152 raises UnboundLocalError);
reject an empty timestamp series (lines 152-155); read the three metadata
fields and build the destination name (lines 158-162); create the
destination directory (line 165); copy the video to depth.avi, copy the
metadata verbatim, and write depth_ts.txt with one timestamp per line
(lines 167-178). -/
def format (fs : FS) (path : Path) : Except (PyError × FS) FS :=
  match _detect_edl_type fs path with
  | .error e => .error (e, fs)
  | .ok edl_type =>
  if edl_type ≠ "EDLCollection" then
    .error (.assertionError "Error: Expected EDLCollection", fs)
  else
    let metadata_path := path ++ ["orbbec-femto-camera", "metadata.json"]
    if ¬ fs.pathExists metadata_path then
      .error (.fileNotFound "There is no metadata file here", fs)
    else
      let video_src_path := path ++ ["videos", "orbbec-femto-camera"]
      if ¬ fs.isDir video_src_path then
        .error (.osFileNotFound "os.listdir: no such directory", fs)
      else
        let entries := fs.childNames video_src_path
        match entries.find? is_video_file with
        | none => .error (.fileNotFound "No video file found (.avi, .mkv, .mp4)", fs)
        | some vf =>
        let videofile := video_src_path ++ [vf]
        match entries.find? is_tsync_file with
        | none => .error (.nameError "timestamps", fs)
        | some tsf =>
        match tsync_to_np fs (video_src_path ++ [tsf]) with
        | .error e => .error (e, fs)
        | .ok timestamps =>
        if timestamps.length = 0 then
          .error (.valueError
            "There is an error with your tsync file, please check it out.", fs)
        else
        match readJson fs metadata_path with
        | .error e => .error (e, fs)
        | .ok data =>
        match dictGet data "SubjectName" with
        | .error e => .error (e, fs)
        | .ok subject =>
        match dictGet data "SessionName" with
        | .error e => .error (e, fs)
        | .ok session =>
        match dictGet data "StartTime" with
        | .error e => .error (e, fs)
        | .ok start =>
        let dataset_name := subject ++ "_" ++ session ++ "_" ++ start
        let moseq_dir := path ++ [dataset_name]
        match fs.makedirs moseq_dir with
        | .error ef => .error ef
        | .ok fs1 =>
        match fs1.copyFile videofile (moseq_dir ++ ["depth.avi"]) with
        | .error ef => .error ef
        | .ok fs2 =>
        match fs2.copyFile metadata_path (moseq_dir ++ ["metadata.json"]) with
        | .error ef => .error ef
        | .ok fs3 =>
        fs3.writeTextLines (moseq_dir ++ ["depth_ts.txt"]) timestamps

/-- True when q lies strictly below directory d. -/
def isUnder (d q : Path) : Bool :=
  decide (q.take d.length = d) && decide (d.length < q.length)

/-- Concrete one-file filesystem holding a tsync log, used as a witness
input. -/
def sampleTsyncFS : FS :=
  { dirs := [["root"]],
    files := [(["root", "video.tsync"], .tsync false [(0, 5000), (1, 6250)])] }

/-- Concrete well-formed collection directory, used as a witness input. -/
def sampleCollectionFS : FS :=
  { dirs := [["r"], ["r", "videos"], ["r", "videos", "orbbec-femto-camera"],
             ["r", "orbbec-femto-camera"]],
    files :=
      [(["r", "manifest.toml"], .toml (.parsed [("type", .str "collection")])),
       (["r", "orbbec-femto-camera", "metadata.json"],
         .json [("SubjectName", "M1"), ("SessionName", "S1"),
                ("StartTime", "T1")]),
       (["r", "videos", "orbbec-femto-camera", "cam.mp4"], .blob 7),
       (["r", "videos", "orbbec-femto-camera", "cam.tsync"],
         .tsync false [(0, 1000), (1, 2000)])] }

/-- Concrete collection directory whose sensor video subdirectory is
missing entirely, used as a witness input. -/
def sampleNoVideoDirFS : FS :=
  { dirs := [["r"], ["r", "orbbec-femto-camera"]],
    files :=
      [(["r", "manifest.toml"], .toml (.parsed [("type", .str "collection")])),
       (["r", "orbbec-femto-camera", "metadata.json"],
         .json [("SubjectName", "M1"), ("SessionName", "S1"),
                ("StartTime", "T1")])] }

/-- Concrete collection directory whose sensor subdirectory holds a video
but no tsync log, used as a witness input. -/
def sampleNoTsyncFS : FS :=
  { dirs := [["r"], ["r", "videos"], ["r", "videos", "orbbec-femto-camera"],
             ["r", "orbbec-femto-camera"]],
    files :=
      [(["r", "manifest.toml"], .toml (.parsed [("type", .str "collection")])),
       (["r", "orbbec-femto-camera", "metadata.json"],
         .json [("SubjectName", "M1"), ("SessionName", "S1"),
                ("StartTime", "T1")]),
       (["r", "videos", "orbbec-femto-camera", "cam.mp4"], .blob 7)] }

/-! ## sanitize_name (src/edlio/utils.py lines 47-69) -/

/-- Membership test for Python string.printable: ASCII 32 to 126 plus tab,
line feed, carriage return, vertical tab and form feed. -/
def pyPrintable (c : Char) : Bool :=
  (32 ≤ c.toNat && c.toNat ≤ 126) || c.toNat = 9 || c.toNat = 10 ||
    c.toNat = 13 || c.toNat = 11 || c.toNat = 12

/-- The printable filter at utils.py line 64. -/
def pyFiltered (name : String) : String :=
  String.mk (name.data.filter pyPrintable)

/-- The replacement chain at utils.py line 65: slash to underscore,
backslash to underscore, colon removed, applied in that order. -/
def pyReplaced (s : String) : String :=
  String.mk (((s.data.map (fun c => if c = '/' then '_' else c)).map
    (fun c => if c = '\\' then '_' else c)).filter
    (fun c => !(decide (c = ':'))))

/-- Embedding of sanitize_name, utils.py lines 47-69.  A falsy (empty)
input returns None.  Otherwise the input is filtered to printable
characters and the replacement chain is applied; when the result is empty,
four random uppercase/digit characters are returned — the random choice is
modelled by the explicit random_fallback parameter. -/
def sanitize_name (name : String) (random_fallback : String) : Option String :=
  if name = "" then none
  else
    let s := pyReplaced (pyFiltered name)
    if s = "" then some random_fallback else some s

theorem npSum_map_fin (l : List ℚ) : npSum (l.map .fin) = .fin l.sum := by
  induction l with
  | nil => rfl
  | cons a t ih => simp [npSum, List.foldr] at ih ⊢; simp [ih, npAdd]

theorem npSub_fin (a b : ℚ) : npSub (.fin a) (.fin b) = .fin (a - b) := by
  simp [npSub, npNeg, npAdd, sub_eq_add_neg]

theorem npDiff_map_fin : ∀ l : List ℚ, npDiff (l.map .fin) = (qdiff l).map .fin
  | [] => rfl
  | [_] => rfl
  | a :: b :: t => by
      have ih := npDiff_map_fin (b :: t)
      simp only [npDiff, qdiff, List.map_cons, List.tail_cons,
        List.zip_cons_cons, List.map_cons] at ih ⊢
      rw [npSub_fin]
      exact congrArg (List.cons _) ih

theorem npMean_map_fin (l : List ℚ) (h : l ≠ []) :
    npMean (l.map .fin) = .fin (qmean l) := by
  have hlen : (l.map NpFloat.fin).length = l.length := List.length_map l _
  have hne : l.length ≠ 0 := by simpa using List.length_pos.mpr h |>.ne'
  unfold npMean qmean
  rw [hlen, if_neg hne, npSum_map_fin, npDiv]
  have : ((l.length : ℚ)) ≠ 0 := by exact_mod_cast hne
  simp [this]

theorem npDiv_fin_of_ne (a b : ℚ) (hb : b ≠ 0) :
    npDiv (.fin a) (.fin b) = .fin (a / b) := by
  simp [npDiv, hb]

theorem qdiff_length (l : List ℚ) : (qdiff l).length = l.length - 1 := by
  unfold qdiff
  rw [List.length_map, List.length_zip, List.length_tail]
  exact min_eq_right (Nat.sub_le _ _)

theorem qdiff_ne_nil (l : List ℚ) (h : 2 ≤ l.length) : qdiff l ≠ [] := by
  intro hnil
  have hlen := qdiff_length l
  rw [hnil] at hlen
  simp only [List.length_nil] at hlen
  omega

theorem qmean_map_div (l : List ℚ) (s : ℚ) :
    qmean (l.map (fun x => x / s)) = qmean l / s := by
  unfold qmean
  rw [List.length_map]
  have hsum : (l.map (fun x => x / s)).sum = l.sum / s := by
    induction l with
    | nil => simp
    | cons a t ih => simp [ih, add_div]
  rw [hsum, div_right_comm]

theorem sum_of_const (l : List ℚ) (d : ℚ) (h : ∀ x ∈ l, x = d) :
    l.sum = (l.length : ℚ) * d := by
  induction l with
  | nil => simp
  | cons a t ih =>
      have ha : a = d := h a (List.mem_cons_self a t)
      have ht : ∀ x ∈ t, x = d := fun x hx => h x (List.mem_cons_of_mem a hx)
      rw [List.sum_cons, ih ht, ha, List.length_cons]
      push_cast
      ring

/-- Helper evaluation lemma for the dropped-frame estimator: on a series of
finite values of length at least two whose consecutive differences have a
nonzero mean, the result is the finite value abs(fps - 1 / avg) / fps, where
avg is the mean of the differences, divided by the scaling factor when that
mean exceeds 10. -/
theorem check_eval (l : List ℚ) (fps scale : ℚ)
    (h2 : 2 ≤ l.length) (hfps : 0 < fps) (hscale : 0 < scale)
    (hmean : qmean (qdiff l) ≠ 0) :
    check_timestamp_error_percentage (l.map .fin) fps scale =
      .fin (|fps - 1 / (if 10 < qmean (qdiff l) then qmean (qdiff l) / scale
                        else qmean (qdiff l))| / fps) := by
  have hne : qdiff l ≠ [] := qdiff_ne_nil l h2
  unfold check_timestamp_error_percentage
  dsimp only
  rw [npDiff_map_fin, npMean_map_fin _ hne]
  by_cases hgt : 10 < qmean (qdiff l)
  · have hgtb : npGtQ (.fin (qmean (qdiff l))) 10 = true := by
      simp [npGtQ, hgt]
    rw [if_pos hgtb, if_pos hgt]
    have hmaps : ((qdiff l).map NpFloat.fin).map (fun d => npDiv d (.fin scale)) =
        ((qdiff l).map (fun x => x / scale)).map NpFloat.fin := by
      rw [List.map_map, List.map_map]
      apply List.map_congr_left
      intro x _
      exact npDiv_fin_of_ne x scale hscale.ne'
    rw [hmaps]
    have hne2 : (qdiff l).map (fun x => x / scale) ≠ [] := by
      simpa using hne
    rw [npMean_map_fin _ hne2, qmean_map_div]
    have havg : qmean (qdiff l) / scale ≠ 0 := div_ne_zero hmean hscale.ne'
    rw [npDiv_fin_of_ne _ _ havg, npSub_fin, npAbs, npDiv_fin_of_ne _ _ hfps.ne']
  · have hgtb : npGtQ (.fin (qmean (qdiff l))) 10 = false := by
      simp [npGtQ]
      linarith [not_lt.mp hgt]
    rw [if_neg (by simp [hgtb]), if_neg hgt, npMean_map_fin _ hne,
      npDiv_fin_of_ne _ _ hmean, npSub_fin, npAbs, npDiv_fin_of_ne _ _ hfps.ne']

/-- C5: for every timestamp series of length at least 2 with non-zero mean
consecutive difference (and positive fps and scale parameters, defaults 30
and 1000), check_timestamp_error_percentage computes the consecutive
differences of the series; if the mean difference exceeds 10 it divides all
differences by the scale parameter; it then returns
abs(fps - 1 / mean(differences)) / fps, a finite value. -/
theorem claim_C5 (l : List ℚ) (fps scale : ℚ)
    (h2 : 2 ≤ l.length) (hfps : 0 < fps) (hscale : 0 < scale)
    (hmean : qmean (qdiff l) ≠ 0) :
    check_timestamp_error_percentage (l.map .fin) fps scale =
      .fin (|fps - 1 / (if 10 < qmean (qdiff l) then qmean (qdiff l) / scale
                        else qmean (qdiff l))| / fps) :=
  check_eval l fps scale h2 hfps hscale hmean

theorem claim_C5_witness :
    2 ≤ ([0, 20, 40] : List ℚ).length ∧ (0:ℚ) < 30 ∧ (0:ℚ) < 1000 ∧
    qmean (qdiff [0, 20, 40]) ≠ 0 ∧
    check_timestamp_error_percentage (([0, 20, 40] : List ℚ).map .fin) 30 1000 =
      .fin (|30 - 1 / (if 10 < qmean (qdiff [0, 20, 40])
                       then qmean (qdiff [0, 20, 40]) / 1000
                       else qmean (qdiff [0, 20, 40]))| / 30) :=
  ⟨by decide, by norm_num, by norm_num, by norm_num [qdiff, qmean],
    claim_C5 [0, 20, 40] 30 1000 (by decide) (by norm_num) (by norm_num)
      (by norm_num [qdiff, qmean])⟩

/-- C6: for every synthetic timestamp series (in milliseconds, the unit the
decoder produces) with exactly 30 evenly spaced samples per second of
duration — all consecutive differences equal to 1000/30 = 100/3 ms — the
dropped-frame estimator with fps = 30 returns a percent error of exactly 0
in the rational idealization of float arithmetic. -/
theorem claim_C6 (l : List ℚ) (h2 : 2 ≤ l.length)
    (hd : ∀ x ∈ qdiff l, x = 100 / 3) :
    check_timestamp_error_percentage (l.map .fin) 30 1000 = .fin 0 := by
  have hlen : (qdiff l).length ≠ 0 := by
    have := qdiff_length l
    omega
  have hlenQ : ((qdiff l).length : ℚ) ≠ 0 := by exact_mod_cast hlen
  have hmean : qmean (qdiff l) = 100 / 3 := by
    unfold qmean
    rw [sum_of_const _ _ hd]
    field_simp
    ring
  have h := check_eval l 30 1000 h2 (by norm_num) (by norm_num)
    (by rw [hmean]; norm_num)
  rw [hmean] at h
  rw [h, if_pos (by norm_num : (10:ℚ) < 100 / 3)]
  norm_num

theorem claim_C6_witness :
    2 ≤ ([0, 100/3, 200/3] : List ℚ).length ∧
    (∀ x ∈ qdiff [0, 100/3, 200/3], x = 100 / 3) ∧
    check_timestamp_error_percentage (([0, 100/3, 200/3] : List ℚ).map .fin) 30 1000 =
      .fin 0 :=
  ⟨by decide, by norm_num [qdiff],
    claim_C6 [0, 100/3, 200/3] (by decide) (by norm_num [qdiff])⟩

/-- C8 (corrected): the claim states that on a series whose consecutive
differences have mean 0 the estimator raises a runtime arithmetic error.
It does not: avgTime is the numpy float 0.0, and 1 / numpy-0.0 yields
positive infinity together with a RuntimeWarning rather than raising, so the
function returns a value, namely +inf (inf propagates through abs and the
final division by fps).  The amended statement: on every series of length at
least 2 whose consecutive differences have mean 0, the estimator with the
default parameters returns positive infinity. -/
theorem claim_C8 (l : List ℚ) (h2 : 2 ≤ l.length)
    (hmean : qmean (qdiff l) = 0) :
    check_timestamp_error_percentage (l.map .fin) 30 1000 = NpFloat.inf := by
  have hne : qdiff l ≠ [] := qdiff_ne_nil l h2
  have hcond : npGtQ (npMean ((qdiff l).map NpFloat.fin)) 10 = false := by
    rw [npMean_map_fin _ hne, hmean]
    simp [npGtQ]
  unfold check_timestamp_error_percentage
  dsimp only
  rw [npDiff_map_fin, hcond, if_neg Bool.false_ne_true,
    npMean_map_fin _ hne, hmean]
  norm_num [npDiv, npSub, npNeg, npAdd, npAbs]

/-- C8 counterexample to the claim as stated: at the concrete duplicate
series [5, 5, 5] the embedded function returns the value +inf; no exception
path exists in the embedding because numpy float division by zero does not
raise. -/
theorem claim_C8_counterexample :
    check_timestamp_error_percentage [.fin 5, .fin 5, .fin 5] 30 1000 =
      NpFloat.inf := by
  norm_num [check_timestamp_error_percentage, npDiff, npMean, npSum,
    npGtQ, npDiv, npSub, npNeg, npAdd, npAbs]

theorem claim_C8_witness :
    2 ≤ ([0, 1, 0] : List ℚ).length ∧ qmean (qdiff [0, 1, 0]) = 0 ∧
    check_timestamp_error_percentage (([0, 1, 0] : List ℚ).map .fin) 30 1000 =
      NpFloat.inf :=
  ⟨by decide, by norm_num [qdiff, qmean],
    claim_C8 [0, 1, 0] (by decide) (by norm_num [qdiff, qmean])⟩

/-- C3: for every directory whose manifest parses successfully, the
classifier maps the type field of the manifest as follows: the string
dataset yields EDLDataset, group yields EDLGroup, collection yields
EDLCollection, any other truthy value yields EDLUnit, and a missing or
falsy value raises a ValueError (unknown or invalid type). -/
theorem claim_C3 (fs : FS) (path : Path) (doc : List (String × TomlValue))
    (hdir : fs.isDir path = true)
    (hman : fs.lookupFile (path ++ ["manifest.toml"]) = some (.toml (.parsed doc))) :
    (lookupA doc "type" = some (.str "dataset") →
        _detect_edl_type fs path = .ok "EDLDataset") ∧
    (lookupA doc "type" = some (.str "group") →
        _detect_edl_type fs path = .ok "EDLGroup") ∧
    (lookupA doc "type" = some (.str "collection") →
        _detect_edl_type fs path = .ok "EDLCollection") ∧
    (∀ v, lookupA doc "type" = some v → v.truthy = true →
        v ≠ .str "dataset" → v ≠ .str "group" → v ≠ .str "collection" →
        _detect_edl_type fs path = .ok "EDLUnit") ∧
    ((lookupA doc "type" = none ∨
        (∃ v, lookupA doc "type" = some v ∧ v.truthy = false)) →
        _detect_edl_type fs path =
          .error (.valueError "Unknown or invalid EDL type in manifest")) := by
  refine ⟨?_, ?_, ?_, ?_, ?_⟩
  · intro h
    simp [_detect_edl_type, hdir, hman, h]
  · intro h
    simp [_detect_edl_type, hdir, hman, h]
  · intro h
    simp [_detect_edl_type, hdir, hman, h]
  · intro v h htr h1 h2 h3
    simp [_detect_edl_type, hdir, hman, h, h1, h2, h3, htr]
  · rintro (h | ⟨v, h, hv⟩)
    · simp [_detect_edl_type, hdir, hman, h]
    · have h1 : v ≠ .str "dataset" := by
        intro he
        rw [he] at hv
        simp [TomlValue.truthy] at hv
      have h2 : v ≠ .str "group" := by
        intro he
        rw [he] at hv
        simp [TomlValue.truthy] at hv
      have h3 : v ≠ .str "collection" := by
        intro he
        rw [he] at hv
        simp [TomlValue.truthy] at hv
      simp [_detect_edl_type, hdir, hman, h, h1, h2, h3, hv]

theorem claim_C3_witness :
    (let fs : FS :=
      { dirs := [["root"]],
        files := [(["root", "manifest.toml"],
                   .toml (.parsed [("type", .str "collection")]))] }
     fs.isDir ["root"] = true ∧
     fs.lookupFile (["root"] ++ ["manifest.toml"]) =
       some (.toml (.parsed [("type", .str "collection")])) ∧
     _detect_edl_type fs ["root"] = .ok "EDLCollection") := by
  refine ⟨by decide, by decide, ?_⟩
  exact (claim_C3 _ ["root"] [("type", .str "collection")]
      (by decide) (by decide)).2.2.1 (by decide)

/-- C4: for every readable time-sync log whose entries carry raw integer
microsecond timestamps, tsync_to_np returns a series of exactly N values in
the same order, where the i-th output value equals the i-th raw tick count
divided by 1000 (true division, floats idealized as rationals).  The
reader for the two tsync variants is modelled from the spec because module
edlio.dataio.tsyncfile is not under src/. -/
theorem claim_C4 (fs : FS) (p : Path) (legacy : Bool)
    (times : List (Int × Int))
    (h : fs.lookupFile p = some (.tsync legacy times)) :
    ∃ out, tsync_to_np fs p = .ok out ∧ out.length = times.length ∧
      ∀ i : ℕ, out[i]? =
        times[i]?.map (fun time_pair => ((time_pair.2 : ℚ) / 1000)) := by
  refine ⟨times.map (fun tp => ((tp.2 : ℚ) / 1000)), ?_, by simp, by simp⟩
  simp [tsync_to_np, h, tsyncTimes]

theorem claim_C4_witness :
    sampleTsyncFS.lookupFile ["root", "video.tsync"] =
      some (.tsync false [(0, 5000), (1, 6250)]) ∧
    (∃ out, tsync_to_np sampleTsyncFS ["root", "video.tsync"] = .ok out ∧
      out.length = ([(0, 5000), (1, 6250)] : List (Int × Int)).length ∧
      ∀ i : ℕ, out[i]? = (([(0, 5000), (1, 6250)] : List (Int × Int))[i]?).map
        (fun time_pair => ((time_pair.2 : ℚ) / 1000))) :=
  ⟨by decide, claim_C4 sampleTsyncFS ["root", "video.tsync"] false _ (by decide)⟩

/-! ## Association list and path lemmas -/

theorem lookupA_update_self {α β : Type} [DecidableEq α]
    (l : List (α × β)) (k : α) (v : β) :
    lookupA (updateA l k v) k = some v := by
  induction l with
  | nil => simp [updateA, lookupA]
  | cons e rest ih =>
      obtain ⟨k', v'⟩ := e
      by_cases h : k' = k
      · subst h
        simp [updateA, lookupA]
      · simp [updateA, lookupA, h, ih]

theorem lookupA_update_ne {α β : Type} [DecidableEq α]
    (l : List (α × β)) (k k' : α) (v : β) (h : k' ≠ k) :
    lookupA (updateA l k v) k' = lookupA l k' := by
  induction l with
  | nil => simp only [updateA, lookupA, if_neg (Ne.symm h)]
  | cons e rest ih =>
      obtain ⟨k₀, v₀⟩ := e
      by_cases h0 : k₀ = k
      · subst h0
        simp only [updateA, if_pos rfl, lookupA, if_neg (Ne.symm h)]
      · simp only [updateA, if_neg h0, lookupA]
        by_cases h1 : k₀ = k'
        · simp [h1]
        · simp [h1, ih]

theorem updateA_of_lookup_eq {α β : Type} [DecidableEq α]
    (l : List (α × β)) (k : α) (v : β) (h : lookupA l k = some v) :
    updateA l k v = l := by
  induction l with
  | nil => simp [lookupA] at h
  | cons e rest ih =>
      obtain ⟨k₀, v₀⟩ := e
      by_cases h0 : k₀ = k
      · subst h0
        have hv : v₀ = v := by simpa [lookupA] using h
        subst hv
        simp [updateA]
      · simp only [lookupA, if_neg h0] at h
        simp [updateA, h0, ih h]

theorem updateA_of_lookup_none {α β : Type} [DecidableEq α]
    (l : List (α × β)) (k : α) (v : β) (h : lookupA l k = none) :
    updateA l k v = l ++ [(k, v)] := by
  induction l with
  | nil => simp [updateA]
  | cons e rest ih =>
      obtain ⟨k₀, v₀⟩ := e
      by_cases h0 : k₀ = k
      · subst h0
        simp [lookupA] at h
      · simp only [lookupA, if_neg h0] at h
        simp [updateA, h0, ih h]

theorem lookupA_append_of_none {α β : Type} [DecidableEq α]
    (l₁ l₂ : List (α × β)) (k : α) (h : lookupA l₁ k = none) :
    lookupA (l₁ ++ l₂) k = lookupA l₂ k := by
  induction l₁ with
  | nil => simp
  | cons e rest ih =>
      obtain ⟨k₀, v₀⟩ := e
      by_cases h0 : k₀ = k
      · simp [lookupA, h0] at h
      · simp only [lookupA, if_neg h0] at h
        simp [lookupA, h0, ih h]

theorem lookupA_eq_none {α β : Type} [DecidableEq α]
    (l : List (α × β)) (k : α) (h : ∀ e ∈ l, e.1 ≠ k) :
    lookupA l k = none := by
  induction l with
  | nil => rfl
  | cons e rest ih =>
      obtain ⟨k₀, v₀⟩ := e
      have h0 : k₀ ≠ k := h (k₀, v₀) (List.mem_cons_self _ _)
      simp only [lookupA, if_neg h0]
      exact ih (fun e he => h e (List.mem_cons_of_mem _ he))

theorem lookupA_some_mem {α β : Type} [DecidableEq α]
    (l : List (α × β)) (k : α) (v : β) (h : lookupA l k = some v) :
    (k, v) ∈ l := by
  induction l with
  | nil => simp [lookupA] at h
  | cons e rest ih =>
      obtain ⟨k₀, v₀⟩ := e
      by_cases h0 : k₀ = k
      · subst h0
        have hv : v₀ = v := by simpa [lookupA] using h
        subst hv
        exact List.mem_cons_self _ _
      · simp only [lookupA, if_neg h0] at h
        exact List.mem_cons_of_mem _ (ih h)

theorem append_ne_of_len_ne (p : Path) (l₁ l₂ : List String)
    (h : l₁.length ≠ l₂.length) : p ++ l₁ ≠ p ++ l₂ := by
  intro he
  have hl := congrArg List.length he
  simp only [List.length_append] at hl
  omega

theorem append_ne_of_suffix_ne (p : Path) (l₁ l₂ : List String)
    (h : l₁ ≠ l₂) : p ++ l₁ ≠ p ++ l₂ :=
  fun he => h (List.append_cancel_left he)

/-- A destination directory name built from the three metadata fields
always contains an underscore, so it never equals the sensor directory
name. -/
theorem dataset_name_ne_camera (a b c : String) :
    a ++ "_" ++ b ++ "_" ++ c ≠ "orbbec-femto-camera" := by
  intro h
  have hm : '_' ∈ (a ++ "_" ++ b ++ "_" ++ c).data := by
    rw [String.data_append, String.data_append, String.data_append,
      String.data_append]
    refine List.mem_append.mpr (Or.inl ?_)
    refine List.mem_append.mpr (Or.inr ?_)
    decide
  rw [h] at hm
  exact absurd hm (by decide)

theorem childName_none_of_le (p q : Path) (h : q.length ≤ p.length) :
    childName p q = none := by
  unfold childName
  have hd : q.drop p.length = [] := List.drop_eq_nil_of_le h
  by_cases ht : q.take p.length = p
  · rw [if_pos ht, hd]
  · rw [if_neg ht]

theorem isUnder_append (d : Path) (rest : List String) (h : rest ≠ []) :
    isUnder d (d ++ rest) = true := by
  unfold isUnder
  have ht : (d ++ rest).take d.length = d := by
    simp [List.take_left]
  have hl : 0 < rest.length := by
    cases rest with
    | nil => exact absurd rfl h
    | cons a t =>
        simp only [List.length_cons]
        omega
  simp [ht, hl]

/-! ## Filesystem operation lemmas -/

theorem isDir_setFile (fs : FS) (p q : Path) (c : Content) :
    (fs.setFile p c).isDir q = fs.isDir q := rfl

theorem files_setFile (fs : FS) (p : Path) (c : Content) :
    (fs.setFile p c).files = updateA fs.files p c := rfl

theorem mkdirsResult_files (fs : FS) (p : Path) :
    (mkdirsResult fs p).files = fs.files := by
  unfold mkdirsResult
  split <;> rfl

theorem mkdirsResult_of_not_dir (fs : FS) (p : Path)
    (h : fs.isDir p = false) :
    mkdirsResult fs p = { fs with dirs := fs.dirs ++ [p] } := by
  unfold mkdirsResult
  rw [h]
  rfl

theorem isDir_mkdirsResult_self (fs : FS) (p : Path) :
    (mkdirsResult fs p).isDir p = true := by
  unfold mkdirsResult
  cases h : fs.isDir p
  · simp only [FS.isDir] at h ⊢
    simp [List.mem_append]
  · simpa using h

theorem isDir_mkdirsResult_of_true (fs : FS) (p q : Path)
    (h : fs.isDir q = true) :
    (mkdirsResult fs p).isDir q = true := by
  unfold mkdirsResult
  cases hd : fs.isDir p
  · simp only [FS.isDir] at h ⊢
    simp only [decide_eq_true_eq] at h
    simp [List.mem_append, h]
  · exact h

theorem isDir_mkdirsResult_of_false (fs : FS) (p q : Path)
    (h : fs.isDir q = false) (hne : q ≠ p) :
    (mkdirsResult fs p).isDir q = false := by
  unfold mkdirsResult
  cases hd : fs.isDir p
  · simp only [FS.isDir] at h ⊢
    simp only [decide_eq_false_iff_not] at h
    simp [List.mem_append, h, hne]
  · exact h

theorem makedirs_of_not_file (fs : FS) (p : Path)
    (h : fs.isFile p = false) :
    fs.makedirs p = .ok (mkdirsResult fs p) := by
  unfold FS.makedirs mkdirsResult
  cases hd : fs.isDir p
  · simp [hd, h]
  · simp [hd]

theorem fresh_dirs_not_dir (fs : FS) (d : Path) (x : String)
    (hfreshd : fs.dirs.all
      (fun q => !(isUnder d q) && !(decide (q = d))) = true) :
    fs.isDir (d ++ [x]) = false := by
  by_cases hm : (d ++ [x]) ∈ fs.dirs
  · have hall := List.all_eq_true.mp hfreshd _ hm
    have hu : isUnder d (d ++ [x]) = true := isUnder_append d [x] (by simp)
    rw [hu] at hall
    simp at hall
  · simp [FS.isDir, hm]

theorem fresh_files_not_file (fs : FS) (d : Path)
    (hfreshf : fs.files.all
      (fun e => !(isUnder d e.1) && !(decide (e.1 = d))) = true) :
    fs.isFile d = false := by
  unfold FS.isFile FS.lookupFile
  cases hc : lookupA fs.files d with
  | none => rfl
  | some c =>
      exfalso
      have hmem := lookupA_some_mem _ _ _ hc
      have hall := List.all_eq_true.mp hfreshf _ hmem
      simp at hall

theorem fresh_files_lookup_none (fs : FS) (d : Path) (x : String)
    (hfreshf : fs.files.all
      (fun e => !(isUnder d e.1) && !(decide (e.1 = d))) = true) :
    fs.lookupFile (d ++ [x]) = none := by
  apply lookupA_eq_none
  intro e he hke
  have hall := List.all_eq_true.mp hfreshf _ he
  rw [hke, isUnder_append d [x] (by simp)] at hall
  simp at hall

/-- Central evaluation lemma for the converter: on a well-formed collection
(collection manifest, metadata file with the three fields, sensor video
directory holding a video file and a nonempty tsync log, destination slots
not occupied by directories and the destination path not occupied by a
file), format succeeds and the final state is the input state with the
destination directory created and the three output files written. -/
theorem format_run
    (fs : FS) (path : Path) (doc : List (String × TomlValue))
    (mdfields : List (String × String)) (subject session start : String)
    (vf tsf : String) (legacy : Bool) (times : List (Int × Int))
    (vcontent : Content)
    (hdir : fs.isDir path = true)
    (hman : fs.lookupFile (path ++ ["manifest.toml"]) =
      some (.toml (.parsed doc)))
    (hty : lookupA doc "type" = some (.str "collection"))
    (hmde : fs.pathExists (path ++ ["orbbec-femto-camera", "metadata.json"]) = true)
    (hvdir : fs.isDir (path ++ ["videos", "orbbec-femto-camera"]) = true)
    (hvf : (fs.childNames (path ++ ["videos", "orbbec-femto-camera"])).find?
        is_video_file = some vf)
    (htf : (fs.childNames (path ++ ["videos", "orbbec-femto-camera"])).find?
        is_tsync_file = some tsf)
    (hts : fs.lookupFile (path ++ ["videos", "orbbec-femto-camera", tsf]) =
      some (.tsync legacy times))
    (htne : times ≠ [])
    (hvc : fs.lookupFile (path ++ ["videos", "orbbec-femto-camera", vf]) =
      some vcontent)
    (hmdc : fs.lookupFile (path ++ ["orbbec-femto-camera", "metadata.json"]) =
      some (.json mdfields))
    (hsub : lookupA mdfields "SubjectName" = some subject)
    (hsess : lookupA mdfields "SessionName" = some session)
    (hstart : lookupA mdfields "StartTime" = some start)
    (hnf : fs.isFile (path ++ [subject ++ "_" ++ session ++ "_" ++ start]) = false)
    (hdv : fs.isDir (path ++ [subject ++ "_" ++ session ++ "_" ++ start,
      "depth.avi"]) = false)
    (hdm : fs.isDir (path ++ [subject ++ "_" ++ session ++ "_" ++ start,
      "metadata.json"]) = false)
    (hdt : fs.isDir (path ++ [subject ++ "_" ++ session ++ "_" ++ start,
      "depth_ts.txt"]) = false) :
    format fs path = .ok
      ((((mkdirsResult fs
            (path ++ [subject ++ "_" ++ session ++ "_" ++ start])).setFile
            (path ++ [subject ++ "_" ++ session ++ "_" ++ start, "depth.avi"])
            vcontent).setFile
          (path ++ [subject ++ "_" ++ session ++ "_" ++ start, "metadata.json"])
          (.json mdfields)).setFile
        (path ++ [subject ++ "_" ++ session ++ "_" ++ start, "depth_ts.txt"])
        (.tsText (times.map (fun time_pair => ((time_pair.2 : ℚ) / 1000))))) := by
  have hdet : _detect_edl_type fs path = .ok "EDLCollection" := by
    simp [_detect_edl_type, hdir, hman, hty]
  have htsn : tsync_to_np fs (path ++ ["videos", "orbbec-femto-camera", tsf]) =
      .ok (times.map (fun time_pair => ((time_pair.2 : ℚ) / 1000))) := by
    simp [tsync_to_np, hts, tsyncTimes]
  have hlen :
      ¬ ((times.map (fun time_pair => ((time_pair.2 : ℚ) / 1000))).length = 0) := by
    simpa [List.length_eq_zero] using htne
  have hjson : readJson fs (path ++ ["orbbec-femto-camera", "metadata.json"]) =
      .ok mdfields := by
    simp [readJson, hmdc]
  have hg1 : dictGet mdfields "SubjectName" = .ok subject := by
    simp [dictGet, hsub]
  have hg2 : dictGet mdfields "SessionName" = .ok session := by
    simp [dictGet, hsess]
  have hg3 : dictGet mdfields "StartTime" = .ok start := by
    simp [dictGet, hstart]
  have hmk : fs.makedirs (path ++ [subject ++ "_" ++ session ++ "_" ++ start]) =
      .ok (mkdirsResult fs (path ++ [subject ++ "_" ++ session ++ "_" ++ start])) :=
    makedirs_of_not_file _ _ hnf
  have hdncam : subject ++ "_" ++ session ++ "_" ++ start ≠ "orbbec-femto-camera" :=
    dataset_name_ne_camera subject session start
  have hdv1 : (mkdirsResult fs
      (path ++ [subject ++ "_" ++ session ++ "_" ++ start])).isDir
      (path ++ [subject ++ "_" ++ session ++ "_" ++ start, "depth.avi"]) = false :=
    isDir_mkdirsResult_of_false _ _ _ hdv (append_ne_of_len_ne _ _ _ (by simp))
  have hsrcv : (mkdirsResult fs
      (path ++ [subject ++ "_" ++ session ++ "_" ++ start])).lookupFile
      (path ++ ["videos", "orbbec-femto-camera", vf]) = some vcontent := by
    show lookupA _ _ = _
    rw [mkdirsResult_files]
    exact hvc
  have hnecv : ¬ (path ++ [subject ++ "_" ++ session ++ "_" ++ start, "depth.avi"] =
      path ++ ["videos", "orbbec-femto-camera", vf]) :=
    append_ne_of_len_ne _ _ _ (by simp)
  have hcv : (mkdirsResult fs
        (path ++ [subject ++ "_" ++ session ++ "_" ++ start])).copyFile
      (path ++ ["videos", "orbbec-femto-camera", vf])
      (path ++ [subject ++ "_" ++ session ++ "_" ++ start, "depth.avi"]) =
      .ok ((mkdirsResult fs
        (path ++ [subject ++ "_" ++ session ++ "_" ++ start])).setFile
        (path ++ [subject ++ "_" ++ session ++ "_" ++ start, "depth.avi"])
        vcontent) := by
    unfold FS.copyFile
    simp [hdv1, hnecv, hsrcv]
  have hdm2 : (((mkdirsResult fs
      (path ++ [subject ++ "_" ++ session ++ "_" ++ start])).setFile
      (path ++ [subject ++ "_" ++ session ++ "_" ++ start, "depth.avi"])
      vcontent)).isDir
      (path ++ [subject ++ "_" ++ session ++ "_" ++ start, "metadata.json"]) =
      false := by
    rw [isDir_setFile]
    exact isDir_mkdirsResult_of_false _ _ _ hdm (append_ne_of_len_ne _ _ _ (by simp))
  have hnecm : ¬ (path ++ [subject ++ "_" ++ session ++ "_" ++ start,
      "metadata.json"] = path ++ ["orbbec-femto-camera", "metadata.json"]) :=
    append_ne_of_suffix_ne _ _ _ (by simp [hdncam])
  have hsrcm : (((mkdirsResult fs
      (path ++ [subject ++ "_" ++ session ++ "_" ++ start])).setFile
      (path ++ [subject ++ "_" ++ session ++ "_" ++ start, "depth.avi"])
      vcontent)).lookupFile
      (path ++ ["orbbec-femto-camera", "metadata.json"]) = some (.json mdfields) := by
    show lookupA (updateA _ _ _) _ = _
    rw [lookupA_update_ne _ _ _ _ (append_ne_of_suffix_ne _ _ _ (by simp)),
      mkdirsResult_files]
    exact hmdc
  have hcm : (((mkdirsResult fs
        (path ++ [subject ++ "_" ++ session ++ "_" ++ start])).setFile
        (path ++ [subject ++ "_" ++ session ++ "_" ++ start, "depth.avi"])
        vcontent)).copyFile
      (path ++ ["orbbec-femto-camera", "metadata.json"])
      (path ++ [subject ++ "_" ++ session ++ "_" ++ start, "metadata.json"]) =
      .ok ((((mkdirsResult fs
        (path ++ [subject ++ "_" ++ session ++ "_" ++ start])).setFile
        (path ++ [subject ++ "_" ++ session ++ "_" ++ start, "depth.avi"])
        vcontent)).setFile
        (path ++ [subject ++ "_" ++ session ++ "_" ++ start, "metadata.json"])
        (.json mdfields)) := by
    unfold FS.copyFile
    simp [hdm2, hnecm, hsrcm]
  have hdt3 : ((((mkdirsResult fs
      (path ++ [subject ++ "_" ++ session ++ "_" ++ start])).setFile
      (path ++ [subject ++ "_" ++ session ++ "_" ++ start, "depth.avi"])
      vcontent)).setFile
      (path ++ [subject ++ "_" ++ session ++ "_" ++ start, "metadata.json"])
      (.json mdfields)).isDir
      (path ++ [subject ++ "_" ++ session ++ "_" ++ start, "depth_ts.txt"]) =
      false := by
    rw [isDir_setFile, isDir_setFile]
    exact isDir_mkdirsResult_of_false _ _ _ hdt (append_ne_of_len_ne _ _ _ (by simp))
  have hwr : ((((mkdirsResult fs
        (path ++ [subject ++ "_" ++ session ++ "_" ++ start])).setFile
        (path ++ [subject ++ "_" ++ session ++ "_" ++ start, "depth.avi"])
        vcontent)).setFile
        (path ++ [subject ++ "_" ++ session ++ "_" ++ start, "metadata.json"])
        (.json mdfields)).writeTextLines
      (path ++ [subject ++ "_" ++ session ++ "_" ++ start, "depth_ts.txt"])
      (times.map (fun time_pair => ((time_pair.2 : ℚ) / 1000))) =
      .ok (((((mkdirsResult fs
        (path ++ [subject ++ "_" ++ session ++ "_" ++ start])).setFile
        (path ++ [subject ++ "_" ++ session ++ "_" ++ start, "depth.avi"])
        vcontent)).setFile
        (path ++ [subject ++ "_" ++ session ++ "_" ++ start, "metadata.json"])
        (.json mdfields)).setFile
        (path ++ [subject ++ "_" ++ session ++ "_" ++ start, "depth_ts.txt"])
        (.tsText (times.map (fun time_pair => ((time_pair.2 : ℚ) / 1000))))) := by
    unfold FS.writeTextLines
    simp [hdt3]
  simp only [format, hdet, hmde, hvdir, hvf, htf, htsn, hlen, hjson,
    hg1, hg2, hg3, List.append_assoc, List.cons_append, List.nil_append,
    Bool.not_true, not_false_eq_true]
  simp [hmk, hcv, hcm, hwr, hlen]

/-- Lookup in the converted state at a path distinct from the three output
files sees the original filesystem. -/
theorem lookupFile_converted
    (fs : FS) (path : Path) (dn : String) (vcontent : Content)
    (mdfields : List (String × String)) (ts : List ℚ) (q : Path)
    (h1 : q ≠ path ++ [dn, "depth.avi"])
    (h2 : q ≠ path ++ [dn, "metadata.json"])
    (h3 : q ≠ path ++ [dn, "depth_ts.txt"]) :
    ((((mkdirsResult fs (path ++ [dn])).setFile
        (path ++ [dn, "depth.avi"]) vcontent).setFile
        (path ++ [dn, "metadata.json"]) (.json mdfields)).setFile
        (path ++ [dn, "depth_ts.txt"]) (.tsText ts)).lookupFile q =
      fs.lookupFile q := by
  show lookupA _ _ = _
  rw [files_setFile, files_setFile, files_setFile, mkdirsResult_files,
    lookupA_update_ne _ _ _ _ h3, lookupA_update_ne _ _ _ _ h2,
    lookupA_update_ne _ _ _ _ h1]
  rfl

theorem mkdirsResult_of_dir (fs : FS) (p : Path) (h : fs.isDir p = true) :
    mkdirsResult fs p = fs := by
  simp [mkdirsResult, h]

theorem setFile_self_of_lookup (fs : FS) (p : Path) (c : Content)
    (h : fs.lookupFile p = some c) : fs.setFile p c = fs := by
  unfold FS.setFile
  rw [updateA_of_lookup_eq _ _ _ h]

/-- Files of the converted state: the three outputs are appended to the
original association list when their paths were fresh. -/
theorem files_converted
    (fs : FS) (path : Path) (dn : String) (vcontent : Content)
    (mdfields : List (String × String)) (ts : List ℚ)
    (hlkv : fs.lookupFile (path ++ [dn, "depth.avi"]) = none)
    (hlkm : fs.lookupFile (path ++ [dn, "metadata.json"]) = none)
    (hlkt : fs.lookupFile (path ++ [dn, "depth_ts.txt"]) = none) :
    ((((mkdirsResult fs (path ++ [dn])).setFile
        (path ++ [dn, "depth.avi"]) vcontent).setFile
        (path ++ [dn, "metadata.json"]) (.json mdfields)).setFile
        (path ++ [dn, "depth_ts.txt"]) (.tsText ts)).files =
      fs.files ++ [(path ++ [dn, "depth.avi"], vcontent),
        (path ++ [dn, "metadata.json"], .json mdfields),
        (path ++ [dn, "depth_ts.txt"], .tsText ts)] := by
  have hne_vm : path ++ [dn, "depth.avi"] ≠ path ++ [dn, "metadata.json"] :=
    append_ne_of_suffix_ne _ _ _ (by simp)
  have hne_vt : path ++ [dn, "depth.avi"] ≠ path ++ [dn, "depth_ts.txt"] :=
    append_ne_of_suffix_ne _ _ _ (by simp)
  have hne_mt : path ++ [dn, "metadata.json"] ≠ path ++ [dn, "depth_ts.txt"] :=
    append_ne_of_suffix_ne _ _ _ (by simp)
  have e1 : updateA fs.files (path ++ [dn, "depth.avi"]) vcontent =
      fs.files ++ [(path ++ [dn, "depth.avi"], vcontent)] :=
    updateA_of_lookup_none _ _ _ hlkv
  have hlk2 : lookupA (fs.files ++ [(path ++ [dn, "depth.avi"], vcontent)])
      (path ++ [dn, "metadata.json"]) = none := by
    rw [lookupA_append_of_none _ _ _ hlkm]
    simp [lookupA, hne_vm]
  have hlk3 : lookupA ((fs.files ++ [(path ++ [dn, "depth.avi"], vcontent)]) ++
      [(path ++ [dn, "metadata.json"], Content.json mdfields)])
      (path ++ [dn, "depth_ts.txt"]) = none := by
    rw [lookupA_append_of_none]
    · simp [lookupA, hne_mt]
    · rw [lookupA_append_of_none _ _ _ hlkt]
      simp [lookupA, hne_vt]
  rw [files_setFile, files_setFile, files_setFile, mkdirsResult_files,
    e1, updateA_of_lookup_none _ _ _ hlk2, updateA_of_lookup_none _ _ _ hlk3]
  simp

/-- Listing a directory at depth at least two below the root is unaffected
by the conversion outputs. -/
theorem childNames_converted
    (fs : FS) (path : Path) (dn : String) (vcontent : Content)
    (mdfields : List (String × String)) (ts : List ℚ) (p : Path)
    (hmos : fs.isDir (path ++ [dn]) = false)
    (hlkv : fs.lookupFile (path ++ [dn, "depth.avi"]) = none)
    (hlkm : fs.lookupFile (path ++ [dn, "metadata.json"]) = none)
    (hlkt : fs.lookupFile (path ++ [dn, "depth_ts.txt"]) = none)
    (hplen : path.length + 2 ≤ p.length) :
    ((((mkdirsResult fs (path ++ [dn])).setFile
        (path ++ [dn, "depth.avi"]) vcontent).setFile
        (path ++ [dn, "metadata.json"]) (.json mdfields)).setFile
        (path ++ [dn, "depth_ts.txt"]) (.tsText ts)).childNames p =
      fs.childNames p := by
  have hfl := files_converted fs path dn vcontent mdfields ts hlkv hlkm hlkt
  have hdl : ((((mkdirsResult fs (path ++ [dn])).setFile
      (path ++ [dn, "depth.avi"]) vcontent).setFile
      (path ++ [dn, "metadata.json"]) (.json mdfields)).setFile
      (path ++ [dn, "depth_ts.txt"]) (.tsText ts)).dirs =
      fs.dirs ++ [path ++ [dn]] := by
    show (mkdirsResult fs (path ++ [dn])).dirs = _
    rw [mkdirsResult_of_not_dir _ _ hmos]
  have c0 : childName p (path ++ [dn]) = none :=
    childName_none_of_le _ _ (by simp [List.length_append]; omega)
  have c1 : childName p (path ++ [dn, "depth.avi"]) = none :=
    childName_none_of_le _ _ (by simp [List.length_append]; omega)
  have c2 : childName p (path ++ [dn, "metadata.json"]) = none :=
    childName_none_of_le _ _ (by simp [List.length_append]; omega)
  have c3 : childName p (path ++ [dn, "depth_ts.txt"]) = none :=
    childName_none_of_le _ _ (by simp [List.length_append]; omega)
  unfold FS.childNames
  rw [hdl, hfl, List.filterMap_append, List.filterMap_append]
  simp [c0, c1, c2, c3]

/-- C1: for every collection directory with a metadata file carrying the
three string fields, a video file in the sensor subdirectory, and a valid
nonempty time-sync log, and whose destination slot is fresh (no existing
file or directory at or under the destination path), format creates inside
the root a destination directory named SubjectName_SessionName_StartTime
containing exactly three artifacts: depth.avi holding the copied video
content, metadata.json holding the metadata verbatim, and depth_ts.txt
whose line count equals the number of entries of the time-sync log. -/
theorem claim_C1
    (fs : FS) (path : Path) (doc : List (String × TomlValue))
    (mdfields : List (String × String)) (subject session start : String)
    (vf tsf : String) (legacy : Bool) (times : List (Int × Int))
    (vcontent : Content)
    (hdir : fs.isDir path = true)
    (hman : fs.lookupFile (path ++ ["manifest.toml"]) =
      some (.toml (.parsed doc)))
    (hty : lookupA doc "type" = some (.str "collection"))
    (hmde : fs.pathExists (path ++ ["orbbec-femto-camera", "metadata.json"]) = true)
    (hvdir : fs.isDir (path ++ ["videos", "orbbec-femto-camera"]) = true)
    (hvf : (fs.childNames (path ++ ["videos", "orbbec-femto-camera"])).find?
        is_video_file = some vf)
    (htf : (fs.childNames (path ++ ["videos", "orbbec-femto-camera"])).find?
        is_tsync_file = some tsf)
    (hts : fs.lookupFile (path ++ ["videos", "orbbec-femto-camera", tsf]) =
      some (.tsync legacy times))
    (htne : times ≠ [])
    (hvc : fs.lookupFile (path ++ ["videos", "orbbec-femto-camera", vf]) =
      some vcontent)
    (hmdc : fs.lookupFile (path ++ ["orbbec-femto-camera", "metadata.json"]) =
      some (.json mdfields))
    (hsub : lookupA mdfields "SubjectName" = some subject)
    (hsess : lookupA mdfields "SessionName" = some session)
    (hstart : lookupA mdfields "StartTime" = some start)
    (hfreshf : fs.files.all (fun e =>
      !(isUnder (path ++ [subject ++ "_" ++ session ++ "_" ++ start]) e.1) &&
      !(decide (e.1 = path ++ [subject ++ "_" ++ session ++ "_" ++ start]))) = true)
    (hfreshd : fs.dirs.all (fun q =>
      !(isUnder (path ++ [subject ++ "_" ++ session ++ "_" ++ start]) q) &&
      !(decide (q = path ++ [subject ++ "_" ++ session ++ "_" ++ start]))) = true) :
    ∃ fs', format fs path = .ok fs' ∧
      fs'.isDir (path ++ [subject ++ "_" ++ session ++ "_" ++ start]) = true ∧
      fs'.lookupFile (path ++ [subject ++ "_" ++ session ++ "_" ++ start,
        "depth.avi"]) = some vcontent ∧
      fs'.lookupFile (path ++ [subject ++ "_" ++ session ++ "_" ++ start,
        "metadata.json"]) = some (.json mdfields) ∧
      fs'.lookupFile (path ++ [subject ++ "_" ++ session ++ "_" ++ start,
        "depth_ts.txt"]) =
        some (.tsText (times.map (fun time_pair => ((time_pair.2 : ℚ) / 1000)))) ∧
      (times.map (fun time_pair => ((time_pair.2 : ℚ) / 1000))).length =
        times.length ∧
      (∀ q c, (q, c) ∈ fs'.files →
        isUnder (path ++ [subject ++ "_" ++ session ++ "_" ++ start]) q = true →
        q = path ++ [subject ++ "_" ++ session ++ "_" ++ start, "depth.avi"] ∨
        q = path ++ [subject ++ "_" ++ session ++ "_" ++ start, "metadata.json"] ∨
        q = path ++ [subject ++ "_" ++ session ++ "_" ++ start, "depth_ts.txt"]) := by
  have hflat : ∀ x : String,
      (path ++ [subject ++ "_" ++ session ++ "_" ++ start]) ++ [x] =
      path ++ [subject ++ "_" ++ session ++ "_" ++ start, x] := by
    intro x
    simp
  have hnf := fresh_files_not_file fs _ hfreshf
  have hdv := fresh_dirs_not_dir fs _ "depth.avi" hfreshd
  have hdm := fresh_dirs_not_dir fs _ "metadata.json" hfreshd
  have hdt := fresh_dirs_not_dir fs _ "depth_ts.txt" hfreshd
  rw [hflat] at hdv hdm hdt
  have hlkv := fresh_files_lookup_none fs _ "depth.avi" hfreshf
  have hlkm := fresh_files_lookup_none fs _ "metadata.json" hfreshf
  have hlkt := fresh_files_lookup_none fs _ "depth_ts.txt" hfreshf
  rw [hflat] at hlkv hlkm hlkt
  have hne_vm : path ++ [subject ++ "_" ++ session ++ "_" ++ start, "depth.avi"] ≠
      path ++ [subject ++ "_" ++ session ++ "_" ++ start, "metadata.json"] :=
    append_ne_of_suffix_ne _ _ _ (by simp)
  have hne_vt : path ++ [subject ++ "_" ++ session ++ "_" ++ start, "depth.avi"] ≠
      path ++ [subject ++ "_" ++ session ++ "_" ++ start, "depth_ts.txt"] :=
    append_ne_of_suffix_ne _ _ _ (by simp)
  have hne_mt : path ++ [subject ++ "_" ++ session ++ "_" ++ start,
      "metadata.json"] ≠
      path ++ [subject ++ "_" ++ session ++ "_" ++ start, "depth_ts.txt"] :=
    append_ne_of_suffix_ne _ _ _ (by simp)
  refine ⟨_, format_run fs path doc mdfields subject session start vf tsf legacy
    times vcontent hdir hman hty hmde hvdir hvf htf hts htne hvc hmdc hsub hsess
    hstart hnf hdv hdm hdt, ?_, ?_, ?_, ?_, ?_, ?_⟩
  · rw [isDir_setFile, isDir_setFile, isDir_setFile]
    exact isDir_mkdirsResult_self _ _
  · show lookupA _ _ = _
    rw [files_setFile, files_setFile, files_setFile, mkdirsResult_files,
      lookupA_update_ne _ _ _ _ hne_vt, lookupA_update_ne _ _ _ _ hne_vm,
      lookupA_update_self]
  · show lookupA _ _ = _
    rw [files_setFile, files_setFile, files_setFile, mkdirsResult_files,
      lookupA_update_ne _ _ _ _ hne_mt, lookupA_update_self]
  · show lookupA _ _ = _
    rw [files_setFile, files_setFile, files_setFile, mkdirsResult_files,
      lookupA_update_self]
  · simp
  · have e1 : updateA fs.files
        (path ++ [subject ++ "_" ++ session ++ "_" ++ start, "depth.avi"])
        vcontent =
        fs.files ++ [(path ++ [subject ++ "_" ++ session ++ "_" ++ start,
          "depth.avi"], vcontent)] :=
      updateA_of_lookup_none _ _ _ hlkv
    have hlk2 : lookupA (fs.files ++
        [(path ++ [subject ++ "_" ++ session ++ "_" ++ start, "depth.avi"],
          vcontent)])
        (path ++ [subject ++ "_" ++ session ++ "_" ++ start, "metadata.json"]) =
        none := by
      rw [lookupA_append_of_none _ _ _ hlkm]
      simp [lookupA, hne_vm]
    have hlk3 : lookupA ((fs.files ++
        [(path ++ [subject ++ "_" ++ session ++ "_" ++ start, "depth.avi"],
          vcontent)]) ++
        [(path ++ [subject ++ "_" ++ session ++ "_" ++ start, "metadata.json"],
          Content.json mdfields)])
        (path ++ [subject ++ "_" ++ session ++ "_" ++ start, "depth_ts.txt"]) =
        none := by
      rw [lookupA_append_of_none]
      · simp [lookupA, hne_mt]
      · rw [lookupA_append_of_none _ _ _ hlkt]
        simp [lookupA, hne_vt]
    intro q c hmem hq
    rw [files_setFile, files_setFile, files_setFile, mkdirsResult_files,
      e1, updateA_of_lookup_none _ _ _ hlk2,
      updateA_of_lookup_none _ _ _ hlk3] at hmem
    rcases List.mem_append.mp hmem with hl | hr
    · rcases List.mem_append.mp hl with hll | hlr
      · rcases List.mem_append.mp hll with h0 | h1
        · exfalso
          have hall := List.all_eq_true.mp hfreshf _ h0
          rw [hq] at hall
          simp at hall
        · left
          simpa using congrArg Prod.fst (List.mem_singleton.mp h1)
      · right
        left
        simpa using congrArg Prod.fst (List.mem_singleton.mp hlr)
    · right
      right
      simpa using congrArg Prod.fst (List.mem_singleton.mp hr)

theorem claim_C1_witness :
    sampleCollectionFS.isDir ["r"] = true ∧
    sampleCollectionFS.lookupFile (["r"] ++ ["manifest.toml"]) =
      some (.toml (.parsed [("type", .str "collection")])) ∧
    lookupA [("type", TomlValue.str "collection")] "type" =
      some (.str "collection") ∧
    sampleCollectionFS.pathExists
      (["r"] ++ ["orbbec-femto-camera", "metadata.json"]) = true ∧
    sampleCollectionFS.isDir (["r"] ++ ["videos", "orbbec-femto-camera"]) = true ∧
    (sampleCollectionFS.childNames
      (["r"] ++ ["videos", "orbbec-femto-camera"])).find? is_video_file =
      some "cam.mp4" ∧
    (sampleCollectionFS.childNames
      (["r"] ++ ["videos", "orbbec-femto-camera"])).find? is_tsync_file =
      some "cam.tsync" ∧
    sampleCollectionFS.lookupFile
      (["r"] ++ ["videos", "orbbec-femto-camera", "cam.tsync"]) =
      some (.tsync false [(0, 1000), (1, 2000)]) ∧
    ([(0, 1000), (1, 2000)] : List (Int × Int)) ≠ [] ∧
    sampleCollectionFS.lookupFile
      (["r"] ++ ["videos", "orbbec-femto-camera", "cam.mp4"]) = some (.blob 7) ∧
    sampleCollectionFS.lookupFile
      (["r"] ++ ["orbbec-femto-camera", "metadata.json"]) =
      some (.json [("SubjectName", "M1"), ("SessionName", "S1"),
                   ("StartTime", "T1")]) ∧
    (∃ fs', format sampleCollectionFS ["r"] = .ok fs' ∧
      fs'.isDir (["r"] ++ ["M1" ++ "_" ++ "S1" ++ "_" ++ "T1"]) = true ∧
      fs'.lookupFile (["r"] ++ ["M1" ++ "_" ++ "S1" ++ "_" ++ "T1",
        "depth.avi"]) = some (.blob 7) ∧
      fs'.lookupFile (["r"] ++ ["M1" ++ "_" ++ "S1" ++ "_" ++ "T1",
        "metadata.json"]) =
        some (.json [("SubjectName", "M1"), ("SessionName", "S1"),
                     ("StartTime", "T1")]) ∧
      fs'.lookupFile (["r"] ++ ["M1" ++ "_" ++ "S1" ++ "_" ++ "T1",
        "depth_ts.txt"]) =
        some (.tsText (([(0, 1000), (1, 2000)] : List (Int × Int)).map
          (fun time_pair => ((time_pair.2 : ℚ) / 1000)))) ∧
      (([(0, 1000), (1, 2000)] : List (Int × Int)).map
        (fun time_pair => ((time_pair.2 : ℚ) / 1000))).length =
        ([(0, 1000), (1, 2000)] : List (Int × Int)).length ∧
      (∀ q c, (q, c) ∈ fs'.files →
        isUnder (["r"] ++ ["M1" ++ "_" ++ "S1" ++ "_" ++ "T1"]) q = true →
        q = ["r"] ++ ["M1" ++ "_" ++ "S1" ++ "_" ++ "T1", "depth.avi"] ∨
        q = ["r"] ++ ["M1" ++ "_" ++ "S1" ++ "_" ++ "T1", "metadata.json"] ∨
        q = ["r"] ++ ["M1" ++ "_" ++ "S1" ++ "_" ++ "T1", "depth_ts.txt"])) :=
  ⟨by decide, by decide, by decide, by decide, by decide, by decide, by decide,
   by decide, by decide, by decide, by decide,
   claim_C1 sampleCollectionFS ["r"] [("type", .str "collection")]
     [("SubjectName", "M1"), ("SessionName", "S1"), ("StartTime", "T1")]
     "M1" "S1" "T1" "cam.mp4" "cam.tsync" false [(0, 1000), (1, 2000)]
     (.blob 7) (by decide) (by decide) (by decide) (by decide) (by decide)
     (by decide) (by decide) (by decide) (by decide) (by decide) (by decide)
     (by decide) (by decide) (by decide) (by decide) (by decide)⟩

/-- C2: if format fails because the sensor video subdirectory is missing
(builtin FileNotFoundError from os.listdir) or because no video file is in
it (the module FileNotFoundError class of the same name), it raises before
creating any destination directory; and if the time-sync log decodes to
zero entries it raises ValueError with no file copies performed — in every
case the returned error carries the input filesystem state unchanged. -/
theorem claim_C2
    (fs : FS) (path : Path) (doc : List (String × TomlValue))
    (hdir : fs.isDir path = true)
    (hman : fs.lookupFile (path ++ ["manifest.toml"]) =
      some (.toml (.parsed doc)))
    (hty : lookupA doc "type" = some (.str "collection"))
    (hmde : fs.pathExists (path ++ ["orbbec-femto-camera", "metadata.json"]) = true) :
    (fs.isDir (path ++ ["videos", "orbbec-femto-camera"]) = false →
      format fs path =
        .error (.osFileNotFound "os.listdir: no such directory", fs)) ∧
    (fs.isDir (path ++ ["videos", "orbbec-femto-camera"]) = true →
      (fs.childNames (path ++ ["videos", "orbbec-femto-camera"])).find?
        is_video_file = none →
      format fs path =
        .error (.fileNotFound "No video file found (.avi, .mkv, .mp4)", fs)) ∧
    (∀ vf tsf : String, ∀ legacy : Bool,
      fs.isDir (path ++ ["videos", "orbbec-femto-camera"]) = true →
      (fs.childNames (path ++ ["videos", "orbbec-femto-camera"])).find?
        is_video_file = some vf →
      (fs.childNames (path ++ ["videos", "orbbec-femto-camera"])).find?
        is_tsync_file = some tsf →
      fs.lookupFile (path ++ ["videos", "orbbec-femto-camera", tsf]) =
        some (.tsync legacy []) →
      format fs path = .error (.valueError
        "There is an error with your tsync file, please check it out.", fs)) := by
  have hdet : _detect_edl_type fs path = .ok "EDLCollection" := by
    simp [_detect_edl_type, hdir, hman, hty]
  refine ⟨?_, ?_, ?_⟩
  · intro hv
    simp [format, hdet, hmde, hv]
  · intro hv hnone
    simp [format, hdet, hmde, hv, hnone]
  · intro vf tsf legacy hv hvf htf hts
    have htsn : tsync_to_np fs (path ++ ["videos", "orbbec-femto-camera", tsf]) =
        .ok ([] : List ℚ) := by
      simp [tsync_to_np, hts, tsyncTimes]
    simp [format, hdet, hmde, hv, hvf, htf, htsn]

theorem claim_C2_witness :
    sampleNoVideoDirFS.isDir ["r"] = true ∧
    sampleNoVideoDirFS.lookupFile (["r"] ++ ["manifest.toml"]) =
      some (.toml (.parsed [("type", .str "collection")])) ∧
    lookupA [("type", TomlValue.str "collection")] "type" =
      some (.str "collection") ∧
    sampleNoVideoDirFS.pathExists
      (["r"] ++ ["orbbec-femto-camera", "metadata.json"]) = true ∧
    ((sampleNoVideoDirFS.isDir (["r"] ++ ["videos", "orbbec-femto-camera"]) = false →
      format sampleNoVideoDirFS ["r"] =
        .error (.osFileNotFound "os.listdir: no such directory",
          sampleNoVideoDirFS)) ∧
    (sampleNoVideoDirFS.isDir (["r"] ++ ["videos", "orbbec-femto-camera"]) = true →
      (sampleNoVideoDirFS.childNames
        (["r"] ++ ["videos", "orbbec-femto-camera"])).find? is_video_file = none →
      format sampleNoVideoDirFS ["r"] =
        .error (.fileNotFound "No video file found (.avi, .mkv, .mp4)",
          sampleNoVideoDirFS)) ∧
    (∀ vf tsf : String, ∀ legacy : Bool,
      sampleNoVideoDirFS.isDir (["r"] ++ ["videos", "orbbec-femto-camera"]) = true →
      (sampleNoVideoDirFS.childNames
        (["r"] ++ ["videos", "orbbec-femto-camera"])).find? is_video_file =
        some vf →
      (sampleNoVideoDirFS.childNames
        (["r"] ++ ["videos", "orbbec-femto-camera"])).find? is_tsync_file =
        some tsf →
      sampleNoVideoDirFS.lookupFile
        (["r"] ++ ["videos", "orbbec-femto-camera", tsf]) =
        some (.tsync legacy []) →
      format sampleNoVideoDirFS ["r"] = .error (.valueError
        "There is an error with your tsync file, please check it out.",
        sampleNoVideoDirFS))) :=
  ⟨by decide, by decide, by decide, by decide,
   claim_C2 sampleNoVideoDirFS ["r"] [("type", .str "collection")]
     (by decide) (by decide) (by decide) (by decide)⟩

/-- C9: when the sensor subdirectory of an otherwise valid collection
contains no file with the .tsync suffix, format fails with an error rather
than completing: the local variable timestamps is never assigned, so
len(timestamps) at line 152 raises UnboundLocalError, and the filesystem
state is unchanged. -/
theorem claim_C9
    (fs : FS) (path : Path) (doc : List (String × TomlValue)) (vf : String)
    (hdir : fs.isDir path = true)
    (hman : fs.lookupFile (path ++ ["manifest.toml"]) =
      some (.toml (.parsed doc)))
    (hty : lookupA doc "type" = some (.str "collection"))
    (hmde : fs.pathExists (path ++ ["orbbec-femto-camera", "metadata.json"]) = true)
    (hvdir : fs.isDir (path ++ ["videos", "orbbec-femto-camera"]) = true)
    (hvf : (fs.childNames (path ++ ["videos", "orbbec-femto-camera"])).find?
      is_video_file = some vf)
    (htfn : (fs.childNames (path ++ ["videos", "orbbec-femto-camera"])).find?
      is_tsync_file = none) :
    format fs path = .error (.nameError "timestamps", fs) := by
  have hdet : _detect_edl_type fs path = .ok "EDLCollection" := by
    simp [_detect_edl_type, hdir, hman, hty]
  simp [format, hdet, hmde, hvdir, hvf, htfn]

theorem claim_C9_witness :
    sampleNoTsyncFS.isDir ["r"] = true ∧
    sampleNoTsyncFS.lookupFile (["r"] ++ ["manifest.toml"]) =
      some (.toml (.parsed [("type", .str "collection")])) ∧
    lookupA [("type", TomlValue.str "collection")] "type" =
      some (.str "collection") ∧
    sampleNoTsyncFS.pathExists
      (["r"] ++ ["orbbec-femto-camera", "metadata.json"]) = true ∧
    sampleNoTsyncFS.isDir (["r"] ++ ["videos", "orbbec-femto-camera"]) = true ∧
    (sampleNoTsyncFS.childNames
      (["r"] ++ ["videos", "orbbec-femto-camera"])).find? is_video_file =
      some "cam.mp4" ∧
    (sampleNoTsyncFS.childNames
      (["r"] ++ ["videos", "orbbec-femto-camera"])).find? is_tsync_file = none ∧
    format sampleNoTsyncFS ["r"] =
      .error (.nameError "timestamps", sampleNoTsyncFS) :=
  ⟨by decide, by decide, by decide, by decide, by decide, by decide, by decide,
   claim_C9 sampleNoTsyncFS ["r"] [("type", .str "collection")] "cam.mp4"
     (by decide) (by decide) (by decide) (by decide) (by decide) (by decide)
     (by decide)⟩

/-- C7: calling format twice on the same valid collection directory is
idempotent with respect to the final destination contents: the first call
succeeds producing a state, and the second call on that state succeeds
returning exactly the same state — the three outputs are overwritten in
place with identical data, with no duplicate or partial files. -/
theorem claim_C7
    (fs : FS) (path : Path) (doc : List (String × TomlValue))
    (mdfields : List (String × String)) (subject session start : String)
    (vf tsf : String) (legacy : Bool) (times : List (Int × Int))
    (vcontent : Content)
    (hdir : fs.isDir path = true)
    (hman : fs.lookupFile (path ++ ["manifest.toml"]) =
      some (.toml (.parsed doc)))
    (hty : lookupA doc "type" = some (.str "collection"))
    (hmde : fs.pathExists (path ++ ["orbbec-femto-camera", "metadata.json"]) = true)
    (hvdir : fs.isDir (path ++ ["videos", "orbbec-femto-camera"]) = true)
    (hvf : (fs.childNames (path ++ ["videos", "orbbec-femto-camera"])).find?
        is_video_file = some vf)
    (htf : (fs.childNames (path ++ ["videos", "orbbec-femto-camera"])).find?
        is_tsync_file = some tsf)
    (hts : fs.lookupFile (path ++ ["videos", "orbbec-femto-camera", tsf]) =
      some (.tsync legacy times))
    (htne : times ≠ [])
    (hvc : fs.lookupFile (path ++ ["videos", "orbbec-femto-camera", vf]) =
      some vcontent)
    (hmdc : fs.lookupFile (path ++ ["orbbec-femto-camera", "metadata.json"]) =
      some (.json mdfields))
    (hsub : lookupA mdfields "SubjectName" = some subject)
    (hsess : lookupA mdfields "SessionName" = some session)
    (hstart : lookupA mdfields "StartTime" = some start)
    (hfreshf : fs.files.all (fun e =>
      !(isUnder (path ++ [subject ++ "_" ++ session ++ "_" ++ start]) e.1) &&
      !(decide (e.1 = path ++ [subject ++ "_" ++ session ++ "_" ++ start]))) = true)
    (hfreshd : fs.dirs.all (fun q =>
      !(isUnder (path ++ [subject ++ "_" ++ session ++ "_" ++ start]) q) &&
      !(decide (q = path ++ [subject ++ "_" ++ session ++ "_" ++ start]))) = true) :
    ∃ fs', format fs path = .ok fs' ∧ format fs' path = .ok fs' := by
  have hdncam := dataset_name_ne_camera subject session start
  have hflat : ∀ x : String,
      (path ++ [subject ++ "_" ++ session ++ "_" ++ start]) ++ [x] =
      path ++ [subject ++ "_" ++ session ++ "_" ++ start, x] := by
    intro x
    simp
  have hnf := fresh_files_not_file fs _ hfreshf
  have hdv := fresh_dirs_not_dir fs _ "depth.avi" hfreshd
  have hdm := fresh_dirs_not_dir fs _ "metadata.json" hfreshd
  have hdt := fresh_dirs_not_dir fs _ "depth_ts.txt" hfreshd
  rw [hflat] at hdv hdm hdt
  have hlkv := fresh_files_lookup_none fs _ "depth.avi" hfreshf
  have hlkm := fresh_files_lookup_none fs _ "metadata.json" hfreshf
  have hlkt := fresh_files_lookup_none fs _ "depth_ts.txt" hfreshf
  rw [hflat] at hlkv hlkm hlkt
  have hmos : fs.isDir (path ++ [subject ++ "_" ++ session ++ "_" ++ start]) =
      false := by
    by_cases hm : (path ++ [subject ++ "_" ++ session ++ "_" ++ start]) ∈ fs.dirs
    · have hall := List.all_eq_true.mp hfreshd _ hm
      simp at hall
    · simp [FS.isDir, hm]
  have hlkmos : fs.lookupFile (path ++ [subject ++ "_" ++ session ++ "_" ++
      start]) = none := by
    apply lookupA_eq_none
    intro e he hke
    have hall := List.all_eq_true.mp hfreshf _ he
    rw [hke] at hall
    simp at hall
  have hne_vm : path ++ [subject ++ "_" ++ session ++ "_" ++ start,
      "depth.avi"] ≠
      path ++ [subject ++ "_" ++ session ++ "_" ++ start, "metadata.json"] :=
    append_ne_of_suffix_ne _ _ _ (by simp)
  have hne_vt : path ++ [subject ++ "_" ++ session ++ "_" ++ start,
      "depth.avi"] ≠
      path ++ [subject ++ "_" ++ session ++ "_" ++ start, "depth_ts.txt"] :=
    append_ne_of_suffix_ne _ _ _ (by simp)
  have hne_mt : path ++ [subject ++ "_" ++ session ++ "_" ++ start,
      "metadata.json"] ≠
      path ++ [subject ++ "_" ++ session ++ "_" ++ start, "depth_ts.txt"] :=
    append_ne_of_suffix_ne _ _ _ (by simp)
  refine ⟨_, format_run fs path doc mdfields subject session start vf tsf legacy
      times vcontent hdir hman hty hmde hvdir hvf htf hts htne hvc hmdc hsub
      hsess hstart hnf hdv hdm hdt, ?_⟩
  refine Eq.trans (format_run _ path doc mdfields subject session start vf tsf
      legacy times vcontent ?_ ?_ hty ?_ ?_ ?_ ?_ ?_ htne ?_ ?_ hsub hsess
      hstart ?_ ?_ ?_ ?_) ?_
  · rw [isDir_setFile, isDir_setFile, isDir_setFile]
    exact isDir_mkdirsResult_of_true _ _ _ hdir
  · rw [lookupFile_converted fs path _ vcontent mdfields _ _
      (append_ne_of_len_ne _ _ _ (by simp)) (append_ne_of_len_ne _ _ _ (by simp))
      (append_ne_of_len_ne _ _ _ (by simp))]
    exact hman
  · simp only [FS.pathExists, FS.isFile]
    rw [lookupFile_converted fs path _ vcontent mdfields _ _
      (append_ne_of_suffix_ne _ _ _ (by simp))
      (append_ne_of_suffix_ne _ _ _ (by simp [Ne.symm hdncam]))
      (append_ne_of_suffix_ne _ _ _ (by simp))]
    simp [hmdc]
  · rw [isDir_setFile, isDir_setFile, isDir_setFile]
    exact isDir_mkdirsResult_of_true _ _ _ hvdir
  · rw [childNames_converted fs path _ vcontent mdfields _ _ hmos hlkv hlkm hlkt
      (by simp [List.length_append])]
    exact hvf
  · rw [childNames_converted fs path _ vcontent mdfields _ _ hmos hlkv hlkm hlkt
      (by simp [List.length_append])]
    exact htf
  · rw [lookupFile_converted fs path _ vcontent mdfields _ _
      (append_ne_of_len_ne _ _ _ (by simp)) (append_ne_of_len_ne _ _ _ (by simp))
      (append_ne_of_len_ne _ _ _ (by simp))]
    exact hts
  · rw [lookupFile_converted fs path _ vcontent mdfields _ _
      (append_ne_of_len_ne _ _ _ (by simp)) (append_ne_of_len_ne _ _ _ (by simp))
      (append_ne_of_len_ne _ _ _ (by simp))]
    exact hvc
  · rw [lookupFile_converted fs path _ vcontent mdfields _ _
      (append_ne_of_suffix_ne _ _ _ (by simp))
      (append_ne_of_suffix_ne _ _ _ (by simp [Ne.symm hdncam]))
      (append_ne_of_suffix_ne _ _ _ (by simp))]
    exact hmdc
  · simp only [FS.isFile]
    rw [lookupFile_converted fs path _ vcontent mdfields _ _
      (append_ne_of_len_ne _ _ _ (by simp)) (append_ne_of_len_ne _ _ _ (by simp))
      (append_ne_of_len_ne _ _ _ (by simp))]
    simp [hlkmos]
  · rw [isDir_setFile, isDir_setFile, isDir_setFile]
    exact isDir_mkdirsResult_of_false _ _ _ hdv (append_ne_of_len_ne _ _ _ (by simp))
  · rw [isDir_setFile, isDir_setFile, isDir_setFile]
    exact isDir_mkdirsResult_of_false _ _ _ hdm (append_ne_of_len_ne _ _ _ (by simp))
  · rw [isDir_setFile, isDir_setFile, isDir_setFile]
    exact isDir_mkdirsResult_of_false _ _ _ hdt (append_ne_of_len_ne _ _ _ (by simp))
  · generalize hG : ((((mkdirsResult fs
        (path ++ [subject ++ "_" ++ session ++ "_" ++ start])).setFile
        (path ++ [subject ++ "_" ++ session ++ "_" ++ start, "depth.avi"])
        vcontent).setFile
        (path ++ [subject ++ "_" ++ session ++ "_" ++ start, "metadata.json"])
        (Content.json mdfields)).setFile
        (path ++ [subject ++ "_" ++ session ++ "_" ++ start, "depth_ts.txt"])
        (Content.tsText (times.map
          (fun time_pair => ((time_pair.2 : ℚ) / 1000))))) = G
    have hdirG : G.isDir (path ++ [subject ++ "_" ++ session ++ "_" ++ start]) =
        true := by
      rw [← hG, isDir_setFile, isDir_setFile, isDir_setFile]
      exact isDir_mkdirsResult_self _ _
    have hlv : G.lookupFile (path ++ [subject ++ "_" ++ session ++ "_" ++ start,
        "depth.avi"]) = some vcontent := by
      rw [← hG]
      show lookupA _ _ = _
      rw [files_setFile, files_setFile, files_setFile, mkdirsResult_files,
        lookupA_update_ne _ _ _ _ hne_vt, lookupA_update_ne _ _ _ _ hne_vm,
        lookupA_update_self]
    have hlm : G.lookupFile (path ++ [subject ++ "_" ++ session ++ "_" ++ start,
        "metadata.json"]) = some (.json mdfields) := by
      rw [← hG]
      show lookupA _ _ = _
      rw [files_setFile, files_setFile, files_setFile, mkdirsResult_files,
        lookupA_update_ne _ _ _ _ hne_mt, lookupA_update_self]
    have hlt : G.lookupFile (path ++ [subject ++ "_" ++ session ++ "_" ++ start,
        "depth_ts.txt"]) = some (.tsText (times.map
          (fun time_pair => ((time_pair.2 : ℚ) / 1000)))) := by
      rw [← hG]
      show lookupA _ _ = _
      rw [files_setFile, files_setFile, files_setFile, mkdirsResult_files,
        lookupA_update_self]
    rw [mkdirsResult_of_dir _ _ hdirG, setFile_self_of_lookup _ _ _ hlv,
      setFile_self_of_lookup _ _ _ hlm, setFile_self_of_lookup _ _ _ hlt]

theorem claim_C7_witness :
    sampleCollectionFS.isDir ["r"] = true ∧
    sampleCollectionFS.lookupFile (["r"] ++ ["manifest.toml"]) =
      some (.toml (.parsed [("type", .str "collection")])) ∧
    lookupA [("type", TomlValue.str "collection")] "type" =
      some (.str "collection") ∧
    sampleCollectionFS.pathExists
      (["r"] ++ ["orbbec-femto-camera", "metadata.json"]) = true ∧
    sampleCollectionFS.isDir (["r"] ++ ["videos", "orbbec-femto-camera"]) = true ∧
    (sampleCollectionFS.childNames
      (["r"] ++ ["videos", "orbbec-femto-camera"])).find? is_video_file =
      some "cam.mp4" ∧
    (sampleCollectionFS.childNames
      (["r"] ++ ["videos", "orbbec-femto-camera"])).find? is_tsync_file =
      some "cam.tsync" ∧
    sampleCollectionFS.lookupFile
      (["r"] ++ ["videos", "orbbec-femto-camera", "cam.tsync"]) =
      some (.tsync false [(0, 1000), (1, 2000)]) ∧
    (∃ fs', format sampleCollectionFS ["r"] = .ok fs' ∧
      format fs' ["r"] = .ok fs') :=
  ⟨by decide, by decide, by decide, by decide, by decide, by decide, by decide,
   by decide,
   claim_C7 sampleCollectionFS ["r"] [("type", .str "collection")]
     [("SubjectName", "M1"), ("SessionName", "S1"), ("StartTime", "T1")]
     "M1" "S1" "T1" "cam.mp4" "cam.tsync" false [(0, 1000), (1, 2000)]
     (.blob 7) (by decide) (by decide) (by decide) (by decide) (by decide)
     (by decide) (by decide) (by decide) (by decide) (by decide) (by decide)
     (by decide) (by decide) (by decide) (by decide) (by decide)⟩

/-- C10: sanitize_name returns None (not a string) for an empty, hence
falsy, input; for every nonempty input whose printable-filtered and
character-replaced form is nonempty, it returns exactly that form, and
every character of it is printable and is none of slash, backslash and
colon (slash and backslash are replaced by underscore, colon is removed). -/
theorem claim_C10 (name rnd : String)
    (h1 : name ≠ "") (h2 : pyReplaced (pyFiltered name) ≠ "") :
    sanitize_name "" rnd = none ∧
    sanitize_name name rnd = some (pyReplaced (pyFiltered name)) ∧
    (∀ c ∈ (pyReplaced (pyFiltered name)).data,
      pyPrintable c = true ∧ c ≠ '/' ∧ c ≠ '\\' ∧ c ≠ ':') := by
  refine ⟨rfl, ?_, ?_⟩
  · simp [sanitize_name, h1, h2]
  · intro c hc
    have hc' : c ∈ (((name.data.filter pyPrintable).map
        (fun c => if c = '/' then '_' else c)).map
        (fun c => if c = '\\' then '_' else c)).filter
        (fun c => !(decide (c = ':'))) := hc
    rcases List.mem_filter.mp hc' with ⟨hcm, hcolon⟩
    rcases List.mem_map.mp hcm with ⟨b, hbm, hb⟩
    rcases List.mem_map.mp hbm with ⟨a, ham, hba⟩
    rcases List.mem_filter.mp ham with ⟨_, hap⟩
    subst hb
    subst hba
    by_cases hA : a = '/'
    · subst hA
      exact ⟨by decide, by decide, by decide, by decide⟩
    · by_cases hB : a = '\\'
      · subst hB
        exact ⟨by decide, by decide, by decide, by decide⟩
      · rw [if_neg hA, if_neg hB]
        rw [if_neg hA, if_neg hB] at hcolon
        have hcol : a ≠ ':' := by simpa using hcolon
        exact ⟨hap, hA, hB, hcol⟩

theorem claim_C10_witness :
    ("a/b:c\\d" : String) ≠ "" ∧
    pyReplaced (pyFiltered "a/b:c\\d") ≠ "" ∧
    (sanitize_name "" "XYZW" = none ∧
     sanitize_name "a/b:c\\d" "XYZW" = some (pyReplaced (pyFiltered "a/b:c\\d")) ∧
     (∀ c ∈ (pyReplaced (pyFiltered "a/b:c\\d")).data,
       pyPrintable c = true ∧ c ≠ '/' ∧ c ≠ '\\' ∧ c ≠ ':')) :=
  ⟨by decide, by decide, claim_C10 "a/b:c\\d" "XYZW" (by decide) (by decide)⟩

end Edlio
